import Mathlib

/-!
Shallow embedding of `src/container.rs` (the `LapceContainer` root widget of
the Lapce editor): geometry types from druid/kurbo, the container state, and
its `event`, `lifecycle`, `update`, `layout` and `paint` entry points.
Coordinates are modelled with exact rationals.  External collaborators (the
palette child, the editor-split child, the shared application state) are
modelled as parameters: the palette's hidden flag and the theme lookup are
inputs, the palette's reported layout size is a function argument, and the
delegated calls to children are recorded as explicit action lists.
-/

namespace Lapce

/-- A 2-D size (width, height), modelling druid's `Size`. -/
structure Size where
  width : ℚ
  height : ℚ
deriving DecidableEq, Repr

/-- `Size::ZERO`. -/
def Size.ZERO : Size := ⟨0, 0⟩

/-- A 2-D point, modelling druid's `Point`. -/
structure Point where
  x : ℚ
  y : ℚ
deriving DecidableEq, Repr

/-- An axis-aligned rectangle given by its two corners, modelling kurbo's
`Rect { x0, y0, x1, y1 }`. -/
structure Rect where
  x0 : ℚ
  y0 : ℚ
  x1 : ℚ
  y1 : ℚ
deriving DecidableEq, Repr

/-- `Rect::ZERO`. -/
def Rect.ZERO : Rect := ⟨0, 0, 0, 0⟩

/-- `Rect::width`: `x1 - x0`. -/
def Rect.width (r : Rect) : ℚ := r.x1 - r.x0

/-- `Rect::height`: `y1 - y0`. -/
def Rect.height (r : Rect) : ℚ := r.y1 - r.y0

/-- `Rect::origin`: the top-left corner `(x0, y0)`. -/
def Rect.origin (r : Rect) : Point := ⟨r.x0, r.y0⟩

/-- `Rect::size`: `(width, height)`. -/
def Rect.size (r : Rect) : Size := ⟨r.width, r.height⟩

/-- `Rect::with_origin`: same size, new top-left corner. -/
def Rect.with_origin (r : Rect) (p : Point) : Rect :=
  ⟨p.x, p.y, p.x + r.width, p.y + r.height⟩

/-- `Rect::with_size`: same origin, new size. -/
def Rect.with_size (r : Rect) (s : Size) : Rect :=
  ⟨r.x0, r.y0, r.x0 + s.width, r.y0 + s.height⟩

/-- kurbo's `Rect::contains`: half-open membership test
`x0 <= p.x < x1 && y0 <= p.y < y1`. -/
def Rect.contains (r : Rect) (p : Point) : Bool :=
  decide (r.x0 ≤ p.x) && decide (p.x < r.x1) &&
    decide (r.y0 ≤ p.y) && decide (p.y < r.y1)

/-- druid's `f64::expand`: round away from zero to an integral value
(`self.abs().ceil().copysign(self)`). -/
def qexpand (q : ℚ) : ℚ :=
  if q < 0 then -((⌈-q⌉ : ℤ) : ℚ) else ((⌈q⌉ : ℤ) : ℚ)

/-- druid's `Size::expand`: both components rounded away from zero. -/
def Size.expand (s : Size) : Size := ⟨qexpand s.width, qexpand s.height⟩

/-- druid's `BoxConstraints`: a min and a max size. -/
structure BoxConstraints where
  min : Size
  max : Size
deriving DecidableEq, Repr

/-- `BoxConstraints::new`, which expands both sizes to integral values. -/
def BoxConstraints.new (mn mx : Size) : BoxConstraints :=
  ⟨mn.expand, mx.expand⟩

/-- The container's own fields from `struct LapceContainer`.  The two
`WidgetPod` child handles carry no state relevant to the claims; the calls
delegated to them are recorded as `Action`s instead. -/
structure LapceContainer where
  palette_max_size : Size
  palette_rect : Rect
deriving DecidableEq, Repr

/-- `LapceContainer::new`: the field initialisers of the constructor
(`palette_max_size = 600×400`, provisional `palette_rect` at origin
`(200, 100)` with size `600×400`). -/
def LapceContainer.new : LapceContainer :=
  { palette_max_size := ⟨600, 400⟩
    palette_rect := (Rect.ZERO.with_origin ⟨200, 100⟩).with_size ⟨600, 400⟩ }

/-- The druid `Event` variants distinguished by `LapceContainer::event`.
Pointer variants carry the mouse position used for hit-testing; the
remaining payloads are irrelevant to routing and are omitted.  `Command`
events are split by the selector/tag dispatch of the source:
`LAPCE_UI_COMMAND` carrying `BufferUpdate`, `LAPCE_UI_COMMAND` carrying any
other tag, `LAPCE_COMMAND`, and any other selector.  `Other` stands for
every druid event variant the source's two `match` statements send to their
catch-all arms (window events, timers, paste, zoom, ...). -/
inductive Event where
  | Internal
  | KeyDown
  | CommandBufferUpdate
  | CommandUIOther
  | CommandLapce
  | CommandOther
  | MouseDown (pos : Point)
  | MouseUp (pos : Point)
  | MouseMove (pos : Point)
  | Wheel (pos : Point)
  | Other
deriving DecidableEq, Repr

/-- The mouse position of a pointer event (`MouseDown`, `MouseUp`,
`MouseMove`, `Wheel`), `none` for every other event class. -/
def Event.pointerPos : Event → Option Point
  | .MouseDown p => some p
  | .MouseUp p => some p
  | .MouseMove p => some p
  | .Wheel p => some p
  | _ => none

/-- The observable delegations `LapceContainer`'s entry points perform:
forwarding an event to a child widget, calling into the shared application
state, or forwarding a lifecycle notification. -/
inductive Action where
  | requestFocus
  | paletteEvent
  | editorSplitEvent
  | stateKeyDown
  | bufferUpdate
  | paletteLifecycle
  | editorSplitLifecycle
deriving DecidableEq, Repr

/-- `LapceContainer::event`.  `hidden` is the palette's hidden flag read
from the shared application state (`LAPCE_STATE.palette.lock().unwrap()
.hidden`).  Returns the container (whose fields the method never writes)
and the ordered list of delegations, mirroring the source's two sequential
`match` statements: the first handles `Internal`, `KeyDown` and `Command`
(the `Command` arm returns early), the second hit-tests pointer events
against the cached `palette_rect`. -/
def LapceContainer.event (c : LapceContainer) (hidden : Bool) (e : Event) :
    LapceContainer × List Action :=
  let firstMatch : List Action × Bool :=
    match e with
    | .Internal => ([.paletteEvent, .editorSplitEvent], false)
    | .KeyDown => ([.stateKeyDown], false)
    | .CommandBufferUpdate => ([.bufferUpdate], true)
    | .CommandUIOther => ([], true)
    | .CommandLapce => ([.paletteEvent], true)
    | .CommandOther => ([], true)
    | _ => ([], false)
  if firstMatch.2 then
    (c, Action.requestFocus :: firstMatch.1)
  else
    let second : List Action :=
      match e with
      | .MouseDown pos | .MouseUp pos | .MouseMove pos | .Wheel pos =>
        if !hidden && c.palette_rect.contains pos then
          [.paletteEvent]
        else
          [.editorSplitEvent]
      | _ => []
    (c, Action.requestFocus :: (firstMatch.1 ++ second))

/-- `LapceContainer::lifecycle`: forwards to both children unconditionally,
palette first. -/
def LapceContainer.lifecycle (c : LapceContainer) :
    LapceContainer × List Action :=
  (c, [.paletteLifecycle, .editorSplitLifecycle])

/-- `LapceContainer::update`: a no-op in the source. -/
def LapceContainer.update (c : LapceContainer) :
    LapceContainer × List Action :=
  (c, [])

/-- The observable result of `LapceContainer::layout`: the container after
the pass (with the recomputed `palette_rect`), the size returned to the
parent, and the layout rectangle assigned to the editor-split child. -/
structure LayoutOut where
  container : LapceContainer
  retSize : Size
  editor_rect : Rect
deriving DecidableEq, Repr

/-- `LapceContainer::layout`.  `paletteLayout` stands for the palette
subsystem's `layout` call: given the box constraints the container passes
down, it reports the palette's actual size.  The editor-split child's
reported size is ignored by the source, so it is not modelled. -/
def LapceContainer.layout (c : LapceContainer)
    (paletteLayout : BoxConstraints → Size) (bc : BoxConstraints) :
    LayoutOut :=
  let size := bc.max
  let palette_bc := BoxConstraints.new Size.ZERO c.palette_max_size
  let palette_size := paletteLayout palette_bc
  let palette_rect :=
    (Rect.ZERO.with_origin
      ⟨(size.width - c.palette_max_size.width) / 2,
        max ((size.height - c.palette_max_size.height) / 4) 0⟩).with_size
      palette_size
  { container := { c with palette_rect := palette_rect }
    retSize := size
    editor_rect := Rect.ZERO.with_size size }

/-- A paint command issued by `LapceContainer::paint`: a background fill of
one dirty rectangle with a theme color (colors modelled as opaque naturals),
or the delegated paint of one child. -/
inductive PaintOp where
  | fill (r : Rect) (color : ℕ)
  | paintEditorSplit
  | paintPalette
deriving DecidableEq, Repr

/-- Whether a paint command is a background fill. -/
def PaintOp.isFill : PaintOp → Bool
  | .fill _ _ => true
  | _ => false

/-- `LapceContainer::paint`.  `theme` is the shared state's theme map
(`LAPCE_STATE.theme.lock().unwrap().get(..)`), `dirty` the dirty-region
rectangles of the paint context.  For each dirty rectangle the source fills
it with the `"background"` color when the lookup succeeds and silently
skips it otherwise; then it paints the editor split, then the palette. -/
def LapceContainer.paint (c : LapceContainer) (theme : String → Option ℕ)
    (dirty : List Rect) : LapceContainer × List PaintOp :=
  (c,
    (dirty.filterMap fun r =>
      (theme "background").map fun background => PaintOp.fill r background) ++
      [.paintEditorSplit, .paintPalette])

/-- C1: for every pointer event, if the palette is not hidden and the
position is inside the cached `palette_rect`, the event goes exclusively
to the palette child; otherwise exclusively to the editor-split child. -/
theorem pointer_event_exclusive_routing (c : LapceContainer) (hidden : Bool)
    (e : Event) (p : Point) (hp : e.pointerPos = some p) :
    if hidden = false ∧ c.palette_rect.contains p = true then
      Action.paletteEvent ∈ (c.event hidden e).2 ∧
        Action.editorSplitEvent ∉ (c.event hidden e).2
    else
      Action.editorSplitEvent ∈ (c.event hidden e).2 ∧
        Action.paletteEvent ∉ (c.event hidden e).2 := by
  cases hidden <;>
    rcases hc : c.palette_rect.contains p <;>
    cases e <;> simp [Event.pointerPos] at hp <;> subst hp <;>
    simp [LapceContainer.event, hc]

/-- Witness for C1: a concrete mouse-down at `(250, 150)` with the palette
visible and the constructor's `palette_rect` is routed to the palette child
and not to the editor split. -/
theorem pointer_event_exclusive_routing_witness :
    Action.paletteEvent ∈
        (LapceContainer.new.event false (Event.MouseDown ⟨250, 150⟩)).2 ∧
      Action.editorSplitEvent ∉
        (LapceContainer.new.event false (Event.MouseDown ⟨250, 150⟩)).2 := by
  have h := pointer_event_exclusive_routing LapceContainer.new false
    (Event.MouseDown ⟨250, 150⟩) ⟨250, 150⟩ rfl
  rw [if_pos ⟨rfl, by norm_num [LapceContainer.new, Rect.contains,
    Rect.with_origin, Rect.with_size, Rect.width, Rect.height, Rect.ZERO]⟩] at h
  exact h

/-- C2: every keyboard-down event is forwarded only to the shared state's
global key handler; neither the palette child nor the editor-split child
receives it, regardless of palette visibility. -/
theorem keydown_bypasses_children (c : LapceContainer) (hidden : Bool) :
    (c.event hidden Event.KeyDown).2 =
        [Action.requestFocus, Action.stateKeyDown] ∧
      Action.paletteEvent ∉ (c.event hidden Event.KeyDown).2 ∧
      Action.editorSplitEvent ∉ (c.event hidden Event.KeyDown).2 := by
  refine ⟨rfl, ?_, ?_⟩ <;> simp [LapceContainer.event]

/-- C3: layout places the palette rectangle at
`x = (w - palette_max_size.width) / 2`,
`y = max ((h - palette_max_size.height) / 4) 0`, with the size the palette
subsystem reports under constraints `(ZERO, palette_max_size)`; for
available size 1000×800 with the constructed container the origin is
`(200, 100)`. -/
theorem layout_palette_origin_and_size (c : LapceContainer)
    (paletteLayout : BoxConstraints → Size) (bc : BoxConstraints) :
    ((c.layout paletteLayout bc).container.palette_rect.origin =
        ⟨(bc.max.width - c.palette_max_size.width) / 2,
          max ((bc.max.height - c.palette_max_size.height) / 4) 0⟩) ∧
      ((c.layout paletteLayout bc).container.palette_rect.size =
        paletteLayout (BoxConstraints.new Size.ZERO c.palette_max_size)) ∧
      (LapceContainer.new.layout paletteLayout
          ⟨Size.ZERO, ⟨1000, 800⟩⟩).container.palette_rect.origin =
        ⟨200, 100⟩ := by
  refine ⟨rfl, ?_, ?_⟩
  · simp [LapceContainer.layout, Rect.size, Rect.width, Rect.height,
      Rect.with_origin, Rect.with_size, Rect.ZERO]
  · norm_num [LapceContainer.new, LapceContainer.layout, Rect.origin,
      Rect.with_origin, Rect.with_size, Rect.width, Rect.height, Rect.ZERO]

/-- C4: the vertical origin of the computed palette rectangle is never
negative; for available size 500×300 with the constructed container it is
exactly 0. -/
theorem layout_palette_origin_y_nonneg (c : LapceContainer)
    (paletteLayout : BoxConstraints → Size) (bc : BoxConstraints) :
    0 ≤ (c.layout paletteLayout bc).container.palette_rect.y0 ∧
      (LapceContainer.new.layout paletteLayout
          ⟨Size.ZERO, ⟨500, 300⟩⟩).container.palette_rect.y0 = 0 := by
  constructor
  · exact le_max_right _ _
  · norm_num [LapceContainer.new, LapceContainer.layout, Rect.with_origin,
      Rect.with_size, Rect.ZERO]

/-- C5: when the palette subsystem's reported size respects the constraints
it was given, the palette rectangle's width and height never exceed
`palette_max_size`. -/
theorem layout_palette_size_bounded (c : LapceContainer)
    (paletteLayout : BoxConstraints → Size) (bc : BoxConstraints)
    (hw : (paletteLayout (BoxConstraints.new Size.ZERO
      c.palette_max_size)).width ≤ c.palette_max_size.width)
    (hh : (paletteLayout (BoxConstraints.new Size.ZERO
      c.palette_max_size)).height ≤ c.palette_max_size.height) :
    (c.layout paletteLayout bc).container.palette_rect.width ≤
        c.palette_max_size.width ∧
      (c.layout paletteLayout bc).container.palette_rect.height ≤
        c.palette_max_size.height := by
  constructor
  · simpa [LapceContainer.layout, Rect.width, Rect.with_origin,
      Rect.with_size, Rect.ZERO] using hw
  · simpa [LapceContainer.layout, Rect.height, Rect.with_origin,
      Rect.with_size, Rect.ZERO] using hh

/-- Witness for C5: with the constructed container and a palette reporting
the full constraint maximum (600×400), the rectangle's dimensions stay
within `palette_max_size`. -/
theorem layout_palette_size_bounded_witness :
    (LapceContainer.new.layout (fun b => b.max)
        ⟨Size.ZERO, ⟨1000, 800⟩⟩).container.palette_rect.width ≤
        LapceContainer.new.palette_max_size.width ∧
      (LapceContainer.new.layout (fun b => b.max)
          ⟨Size.ZERO, ⟨1000, 800⟩⟩).container.palette_rect.height ≤
        LapceContainer.new.palette_max_size.height :=
  layout_palette_size_bounded LapceContainer.new (fun b => b.max)
    ⟨Size.ZERO, ⟨1000, 800⟩⟩
    (by norm_num [LapceContainer.new, BoxConstraints.new, Size.expand,
      qexpand, Size.ZERO])
    (by norm_num [LapceContainer.new, BoxConstraints.new, Size.expand,
      qexpand, Size.ZERO])

/-- C6: layout is idempotent: a second pass with the same constraints (and
the same palette layout response) produces the same palette rectangle and
the same editor-split rectangle as the first. -/
theorem layout_idempotent (c : LapceContainer)
    (paletteLayout : BoxConstraints → Size) (bc : BoxConstraints) :
    (((c.layout paletteLayout bc).container.layout paletteLayout
          bc).container.palette_rect =
        (c.layout paletteLayout bc).container.palette_rect) ∧
      ((c.layout paletteLayout bc).container.layout paletteLayout
          bc).editor_rect =
        (c.layout paletteLayout bc).editor_rect :=
  ⟨rfl, rfl⟩

/-- C7: layout returns exactly `bc.max`, and the editor-split child is
assigned the rectangle from the origin covering the whole available size,
whatever the palette subsystem reports. -/
theorem layout_full_size (c : LapceContainer)
    (paletteLayout : BoxConstraints → Size) (bc : BoxConstraints) :
    (c.layout paletteLayout bc).retSize = bc.max ∧
      (c.layout paletteLayout bc).editor_rect.origin = ⟨0, 0⟩ ∧
      (c.layout paletteLayout bc).editor_rect.size = bc.max := by
  refine ⟨rfl, rfl, ?_⟩
  simp [LapceContainer.layout, Rect.size, Rect.width, Rect.height,
    Rect.with_size, Rect.ZERO]

/-- C8: paint's non-fill commands are always exactly the editor split
followed by the palette (the palette is painted last, on top), and when the
theme has no `"background"` entry no fill is emitted at all. -/
theorem paint_background_and_z_order (c : LapceContainer)
    (theme : String → Option ℕ) (dirty : List Rect) :
    ((c.paint theme dirty).2.filter fun op => !op.isFill) =
        [PaintOp.paintEditorSplit, PaintOp.paintPalette] ∧
      (theme "background" = none →
        (c.paint theme dirty).2 =
          [PaintOp.paintEditorSplit, PaintOp.paintPalette]) := by
  constructor
  · have hfill : ∀ op ∈ dirty.filterMap fun r =>
        (theme "background").map fun background => PaintOp.fill r background,
        op.isFill = true := by
      intro op hop
      rw [List.mem_filterMap] at hop
      obtain ⟨r, _, hr⟩ := hop
      cases hb : theme "background" <;> rw [hb] at hr
      · simp at hr
      · rw [Option.map_some'] at hr
        cases hr
        rfl
    simp only [LapceContainer.paint, List.filter_append]
    rw [List.filter_eq_nil_iff.mpr (by intro op hop; simp [hfill op hop])]
    rfl
  · intro hnone
    simp [LapceContainer.paint, hnone]

/-- Witness for C8: with an empty theme and one dirty rectangle, paint
emits no fill and paints the editor split then the palette. -/
theorem paint_background_and_z_order_witness :
    (LapceContainer.new.paint (fun _ => none) [Rect.ZERO]).2 =
      [PaintOp.paintEditorSplit, PaintOp.paintPalette] :=
  (paint_background_and_z_order LapceContainer.new (fun _ => none)
    [Rect.ZERO]).2 rfl

/-- C9: no entry point other than layout writes the container's fields:
event, lifecycle, update and paint return the container unchanged, and
layout never changes `palette_max_size`. -/
theorem entry_points_preserve_fields (c : LapceContainer) (hidden : Bool)
    (e : Event) (paletteLayout : BoxConstraints → Size) (bc : BoxConstraints)
    (theme : String → Option ℕ) (dirty : List Rect) :
    (c.event hidden e).1 = c ∧
      c.lifecycle.1 = c ∧
      c.update.1 = c ∧
      (c.layout paletteLayout bc).container.palette_max_size =
        c.palette_max_size ∧
      (c.paint theme dirty).1 = c := by
  refine ⟨?_, rfl, rfl, rfl, rfl⟩
  cases e <;> rfl

/-- C10: when the available width is strictly below
`palette_max_size.width`, the palette rectangle's horizontal origin is
negative (no clamping on the horizontal axis). -/
theorem layout_narrow_width_negative_x (c : LapceContainer)
    (paletteLayout : BoxConstraints → Size) (bc : BoxConstraints)
    (h : bc.max.width < c.palette_max_size.width) :
    (c.layout paletteLayout bc).container.palette_rect.x0 < 0 := by
  show (bc.max.width - c.palette_max_size.width) / 2 < 0
  linarith

/-- Witness for C10: at available size 500×300 with the constructed
container (maximum width 600), the horizontal origin is negative. -/
theorem layout_narrow_width_negative_x_witness :
    (LapceContainer.new.layout (fun b => b.max)
        ⟨Size.ZERO, ⟨500, 300⟩⟩).container.palette_rect.x0 < 0 :=
  layout_narrow_width_negative_x LapceContainer.new (fun b => b.max)
    ⟨Size.ZERO, ⟨500, 300⟩⟩ (by norm_num [LapceContainer.new])

end Lapce
